import Mathlib

/-!
Verification of the reconciliation core of a Cloudflare dynamic-DNS script
(src/cloudflare_ddns.py).  The script resolves the caller's public IP from a
fixed list of IP-echo endpoints, lists the DNS records matching a configured
(name, type) pair, and creates or updates one record when the stored content
differs from the resolved IP.

The embedding below is a shallow model of the three functions the claims are
about, `get_public_ip`, `cf_api_request` and `update_dns`, plus the exit-code
logic of the `__main__` block.  Network behaviour is passed in explicitly:
the IP-echo services are a function from URL to an optional response body
(`none` models any endpoint-level exception: timeout, non-2xx, connection
error), and the DNS provider is a record of per-call outcomes.  Python
exceptions that `update_dns` does not catch are modelled with `Except.error`;
they are caught by the top-level handler of `__main__`.
-/

/-- The two record types the script's services dict supports
("A" and "AAAA" are the only keys of the services dictionary,
and the setup wizard offers exactly these two). -/
inductive RecordType where
  | A
  | AAAA
deriving DecidableEq, Repr

/-- The string form of a record type, as stored in the config. -/
def RecordType.str : RecordType → String
  | .A => "A"
  | .AAAA => "AAAA"

/-- The configuration fields `update_dns` reads (RECORD_NAME, RECORD_TYPE,
TTL from the config dict). -/
structure Config where
  RECORD_NAME : String
  RECORD_TYPE : RecordType
  TTL : Nat
deriving DecidableEq, Repr

/-- The ordered endpoint lists of `get_public_ip` (the `services` dict,
lines 200-211 of the source). -/
def services : RecordType → List String
  | .A => ["https://api.ipify.org", "https://ipv4.icanhazip.com",
           "https://checkip.amazonaws.com"]
  | .AAAA => ["https://api6.ipify.org", "https://ipv6.icanhazip.com",
              "https://v6.ident.me"]

/-- Python str.strip with no argument: drop leading and trailing
whitespace characters. -/
def stripChars (l : List Char) : List Char :=
  ((l.dropWhile Char.isWhitespace).reverse.dropWhile Char.isWhitespace).reverse

/-- Python str.strip on a string, via its character list. -/
def strip (s : String) : String := ⟨stripChars s.data⟩

/-- The loop of `get_public_ip` (lines 214-224): walk the endpoint list in
order; an endpoint that raises (modelled `none`) is skipped, a 2xx body is
stripped and returned when non-empty, otherwise the loop continues. -/
def tryServices (respond : String → Option String) : List String → Option String
  | [] => none
  | u :: rest =>
    match respond u with
    | none => tryServices respond rest
    | some body =>
      let ip := strip body
      if ip = "" then tryServices respond rest else some ip

/-- `CloudflareDDNS.get_public_ip` (lines 198-227): try the service list for
the configured record type, return the first non-empty stripped body, or
`none` (Python `None`) when the whole list is exhausted. -/
def get_public_ip (record_type : RecordType) (respond : String → Option String) :
    Option String :=
  tryServices respond (services record_type)

/-- A remote DNS record as consumed by `update_dns`: only the `id` and
`content` fields are read (lines 315-316, 300). -/
structure CFRecord where
  id : String
  content : String
deriving DecidableEq, Repr

/-- The subset of a parsed Cloudflare JSON body that the script reads:
the truthiness of the `success` field, the `errors` array (each entry's
optional `message` field; the array itself may be absent), and the optional
`result` payload. -/
structure CFBody (ρ : Type) where
  success : Bool
  errors : Option (List (Option String))
  result : Option ρ
deriving DecidableEq, Repr

/-- The outcome of one HTTP exchange inside `cf_api_request`: either a 2xx
response with a parsed JSON body, or a `requests` exception carrying its
string form and, when the error response parsed as JSON, that body. -/
inductive HttpOutcome (ρ : Type) where
  | ok (body : CFBody ρ)
  | err (msg : String) (body : Option (CFBody ρ))
deriving DecidableEq, Repr

/-- The list comprehension of line 256: joins every error `message` with
", ".  A `message` key missing from any entry raises KeyError, which the
bare `except` swallows (modelled as `none`, leaving the transport text). -/
def joinMessages (errs : List (Option String)) : Option String :=
  if errs.all (fun m => m.isSome) then
    some (String.intercalate ", " (errs.filterMap id))
  else none

/-- `CloudflareDDNS.cf_api_request` (lines 229-262), after the HTTP exchange:
a 2xx response returns its parsed body unchanged; an exception produces
a synthetic failure body whose single error message is the exception text,
extended with " | " and the comma-joined provider messages when the error
response carried a parseable `errors` array. -/
def cf_api_request {ρ : Type} (o : HttpOutcome ρ) : CFBody ρ :=
  match o with
  | .ok body => body
  | .err msg body =>
    let error_msg :=
      match body with
      | none => msg
      | some b =>
        match b.errors with
        | none => msg
        | some errs =>
          match joinMessages errs with
          | none => msg
          | some joined => msg ++ " | " ++ joined
    ⟨false, some [some error_msg], none⟩

/-- The error extraction `result.get("errors", [{}])[0].get("message",
"未知错误")` of lines 279, 305 and 341: an absent `errors` field yields the
default text, a present-but-empty array raises IndexError (uncaught), and
otherwise the first entry's `message` (or the default) is used. -/
def firstError : Option (List (Option String)) → Except String String
  | none => .ok "未知错误"
  | some [] => .error "IndexError"
  | some (m :: _) => .ok (m.getD "未知错误")

/-- The body sent by both the create (lines 289-295) and update
(lines 326-332) calls. -/
structure RecordData where
  type : String
  name : String
  content : String
  ttl : Nat
  proxied : Bool
deriving DecidableEq, Repr

/-- The record body `update_dns` builds for its write calls:
type and name from the config, content the resolved IP, ttl from the
config, proxied always false. -/
def recordData (cfg : Config) (ip : String) : RecordData :=
  ⟨cfg.RECORD_TYPE.str, cfg.RECORD_NAME, ip, cfg.TTL, false⟩

/-- One API call issued by `update_dns`, with the request data it carried. -/
inductive ApiCall where
  | list (name ty : String)
  | create (data : RecordData)
  | update (id : String) (data : RecordData)
deriving DecidableEq, Repr

/-- The HTTP verb each call maps to inside `cf_api_request`
(lines 238-243). -/
def ApiCall.method : ApiCall → String
  | .list _ _ => "GET"
  | .create _ => "POST"
  | .update _ _ => "PUT"

/-- Whether a call mutates remote state (create and update do, list does
not). -/
def ApiCall.isWrite : ApiCall → Bool
  | .list _ _ => false
  | .create _ => true
  | .update _ _ => true

/-- Number of write calls in a trace. -/
def writeCount (calls : List ApiCall) : Nat :=
  (calls.filter ApiCall.isWrite).length

/-- The list query `update_dns` issues first (line 275): a GET filtered by
the configured name and type. -/
def listCall (cfg : Config) : ApiCall :=
  .list cfg.RECORD_NAME cfg.RECORD_TYPE.str

/-- The provider side of one run: the outcome of the list call, and the
outcome of a create or update call as a function of the request it carries.
`update_dns` performs at most one of each. -/
structure ProviderBehavior where
  listResp : HttpOutcome (List CFRecord)
  createResp : RecordData → HttpOutcome CFRecord
  updateResp : String → RecordData → HttpOutcome CFRecord

/-- The four terminal branches of `update_dns`, distinguished by their log
lines; the function itself returns True for the first three and False for
`failed`. -/
inductive Outcome where
  | created
  | updated
  | unchanged
  | failed
deriving DecidableEq, Repr

/-- The boolean `update_dns` actually returns for each branch. -/
def Outcome.toBool : Outcome → Bool
  | .failed => false
  | _ => true

/-- What one run did: its terminal branch, the API calls it issued in
order, and the provider error message it logged, when one was logged
(the `error` variable of lines 279, 305, 341). -/
structure RunLog where
  outcome : Outcome
  calls : List ApiCall
  reported : Option String
deriving DecidableEq, Repr

/-- `CloudflareDDNS.update_dns` (lines 264-344).  Resolve the public IP
(failed run, no API calls, when that yields None); list the matching
records; on provider-reported list failure extract and log the first error
message and fail; with zero records issue one create call and mirror its
success bit (reading the created record's id on success raises KeyError if
the `result` payload is absent); with one or more records compare the first
record's content with the resolved IP, returning unchanged on equality and
otherwise issuing one update call targeting that record's id.
`Except.error` marks a Python exception the function does not catch. -/
def update_dns (cfg : Config) (ipRespond : String → Option String)
    (prov : ProviderBehavior) : Except String RunLog :=
  match get_public_ip cfg.RECORD_TYPE ipRespond with
  | none => .ok ⟨.failed, [], none⟩
  | some current_ip =>
    let result := cf_api_request prov.listResp
    if result.success = false then
      match firstError result.errors with
      | .error e => .error e
      | .ok msg => .ok ⟨.failed, [listCall cfg], some msg⟩
    else
      match result.result.getD [] with
      | [] =>
        let record_data := recordData cfg current_ip
        let create_result := cf_api_request (prov.createResp record_data)
        if create_result.success then
          match create_result.result with
          | some _ => .ok ⟨.created, [listCall cfg, .create record_data], none⟩
          | none => .error "KeyError"
        else
          match firstError create_result.errors with
          | .error e => .error e
          | .ok msg =>
            .ok ⟨.failed, [listCall cfg, .create record_data], some msg⟩
      | record :: _ =>
        if record.content = current_ip then
          .ok ⟨.unchanged, [listCall cfg], none⟩
        else
          let update_data := recordData cfg current_ip
          let update_result := cf_api_request (prov.updateResp record.id update_data)
          if update_result.success then
            .ok ⟨.updated, [listCall cfg, .update record.id update_data], none⟩
          else
            match firstError update_result.errors with
            | .error e => .error e
            | .ok msg =>
              .ok ⟨.failed, [listCall cfg, .update record.id update_data], some msg⟩

/-- The `__main__` block (lines 362-372): run `update_dns` and exit with
0 when it returned True and 1 when it returned False; exit 1 on
KeyboardInterrupt and on any other uncaught exception. -/
def runMain (cfg : Config) (ipRespond : String → Option String)
    (prov : ProviderBehavior) (interrupted : Bool) : Nat :=
  if interrupted then 1
  else
    match update_dns cfg ipRespond prov with
    | .ok log => if log.outcome.toBool then 0 else 1
    | .error _ => 1

/-- An endpoint that this run cannot take an IP from: it either raises
(no response) or every body it returns strips to the empty string. -/
def failsOrEmpty (respond : String → Option String) (u : String) : Prop :=
  ∀ b, respond u = some b → strip b = ""

/-! ## Resolver lemmas -/

/-- The resolver loop exhausts its list exactly when every endpoint fails
or strips to empty. -/
theorem tryServices_eq_none_iff (respond : String → Option String) (l : List String) :
    tryServices respond l = none ↔ ∀ u ∈ l, failsOrEmpty respond u := by
  induction l with
  | nil => simp [tryServices]
  | cons u rest ih =>
    cases hu : respond u with
    | none =>
      simp only [tryServices, hu, ih]
      constructor
      · intro h v hv
        rcases List.mem_cons.1 hv with h1 | h1
        · subst h1
          intro b hb
          rw [hu] at hb
          cases hb
        · exact h v h1
      · intro h v hv
        exact h v (List.mem_cons_of_mem _ hv)
    | some body =>
      by_cases hb : strip body = ""
      · simp only [tryServices, hu, hb, if_pos, ih]
        constructor
        · intro h v hv
          rcases List.mem_cons.1 hv with h1 | h1
          · subst h1
            intro b hbb
            rw [hu] at hbb
            cases hbb
            exact hb
          · exact h v h1
        · intro h v hv
          exact h v (List.mem_cons_of_mem _ hv)
      · simp only [tryServices, hu, hb, if_neg, if_false]
        constructor
        · intro h
          cases h
        · intro h
          exact absurd (h u (List.mem_cons_self u rest) body hu) hb

/-- The resolver returns the stripped body of the first endpoint that
responds with a body that is non-empty after stripping; every earlier
endpoint failed or stripped to empty. -/
theorem tryServices_first (respond : String → Option String) (l1 l2 : List String)
    (u : String) (b : String) (h1 : ∀ v ∈ l1, failsOrEmpty respond v)
    (hu : respond u = some b) (hb : strip b ≠ "") :
    tryServices respond (l1 ++ u :: l2) = some (strip b) := by
  induction l1 with
  | nil => simp [tryServices, hu, hb]
  | cons v rest ih =>
    have hv := h1 v (List.mem_cons_self v rest)
    have ih2 := ih (fun w hw => h1 w (List.mem_cons_of_mem _ hw))
    cases hv2 : respond v with
    | none => simpa [tryServices, hv2] using ih2
    | some bv =>
      have hbv : strip bv = "" := hv bv hv2
      simpa [tryServices, hv2, hbv] using ih2

/-! ## Concrete fixtures for witnesses -/

/-- A sample configuration (the default record name and type of the
script's config template, TTL 60). -/
def cfgEx : Config := ⟨"ddns.example.com", .A, 60⟩

/-- An IP-echo behaviour whose first endpoint already answers with an
address. -/
def respondEx : String → Option String := fun _ => some "203.0.113.5"

/-- A sample remote record. -/
def okRecord : CFRecord := ⟨"rid1", "203.0.113.5"⟩

/-- A provider whose three calls all succeed; the list call returns one
record whose content already equals the resolved address. -/
def provOkEx : ProviderBehavior :=
  ⟨.ok ⟨true, none, some [okRecord]⟩,
   fun _ => .ok ⟨true, none, some okRecord⟩,
   fun _ _ => .ok ⟨true, none, some okRecord⟩⟩

/-! ## Claims -/

/-- C7: the resolver tries the fixed ordered endpoint list of the requested
type; it returns the stripped body of the first endpoint that succeeds with
a non-empty stripped body, and every endpoint-level failure is swallowed by
moving on to the next endpoint; it errors (returns None) exactly when the
whole list is exhausted; and it does not validate that the returned text is
an address of the requested family. -/
theorem resolver_first_success_no_validation (t : RecordType)
    (respond : String → Option String) :
    (services .A = ["https://api.ipify.org", "https://ipv4.icanhazip.com",
        "https://checkip.amazonaws.com"] ∧
     services .AAAA = ["https://api6.ipify.org", "https://ipv6.icanhazip.com",
        "https://v6.ident.me"]) ∧
    (get_public_ip t respond = none ↔ ∀ u ∈ services t, failsOrEmpty respond u) ∧
    (∀ l1 u l2 b, services t = l1 ++ u :: l2 →
       (∀ v ∈ l1, failsOrEmpty respond v) →
       respond u = some b → strip b ≠ "" →
       get_public_ip t respond = some (strip b)) ∧
    get_public_ip .A (fun _ => some "definitely-not-an-ip") =
      some "definitely-not-an-ip" := by
  refine ⟨⟨rfl, rfl⟩, tryServices_eq_none_iff respond (services t), ?_, ?_⟩
  · intro l1 u l2 b hsplit h1 hu hb
    rw [get_public_ip, hsplit]
    exact tryServices_first respond l1 l2 u b h1 hu hb
  · decide

/-- Witness for C7: with the first endpoint down and the second answering
a padded body, the resolver returns the stripped body of the second. -/
theorem resolver_first_success_no_validation_witness :
    get_public_ip .A
      (fun u => if u = "https://api.ipify.org" then none
                else some " 203.0.113.7\n") = some "203.0.113.7" := by
  have h := (resolver_first_success_no_validation .A
      (fun u => if u = "https://api.ipify.org" then none
                else some " 203.0.113.7\n")).2.2.1
      ["https://api.ipify.org"] "https://ipv4.icanhazip.com"
      ["https://checkip.amazonaws.com"] " 203.0.113.7\n" rfl
      (by
        intro v hv b hb
        simp only [List.mem_singleton] at hv
        subst hv
        simp at hb)
      (by decide) (by decide)
  rwa [show strip " 203.0.113.7\n" = "203.0.113.7" from by decide] at h

/-- C5: when every configured endpoint of the requested type fails or
returns an empty stripped body, the run fails immediately with an empty
call trace: no list, create or update call reaches the provider. -/
theorem reconcile_resolver_exhaustion (cfg : Config)
    (ipRespond : String → Option String) (prov : ProviderBehavior)
    (h : ∀ u ∈ services cfg.RECORD_TYPE, failsOrEmpty ipRespond u) :
    update_dns cfg ipRespond prov = .ok ⟨.failed, [], none⟩ := by
  have hnone : get_public_ip cfg.RECORD_TYPE ipRespond = none :=
    (tryServices_eq_none_iff ipRespond (services cfg.RECORD_TYPE)).2 h
  simp [update_dns, hnone]

/-- Witness for C5: a run in which every endpoint raises. -/
theorem reconcile_resolver_exhaustion_witness :
    update_dns cfgEx (fun _ => none) provOkEx = .ok ⟨.failed, [], none⟩ :=
  reconcile_resolver_exhaustion cfgEx (fun _ => none) provOkEx
    (fun _ _ _ hb => nomatch hb)

/-- C1: when the resolved IP equals the content of the first listed record,
the run returns the unchanged outcome, its only provider call is the list
query, and over any number of repeated identical invocations the combined
trace contains zero write calls. -/
theorem reconcile_unchanged_idempotent (cfg : Config)
    (ipRespond : String → Option String) (prov : ProviderBehavior)
    (ip : String) (body : CFBody (List CFRecord)) (rec : CFRecord)
    (rest : List CFRecord)
    (hip : get_public_ip cfg.RECORD_TYPE ipRespond = some ip)
    (hl : prov.listResp = .ok body)
    (hs : body.success = true)
    (hr : body.result = some (rec :: rest))
    (heq : rec.content = ip) :
    update_dns cfg ipRespond prov = .ok ⟨.unchanged, [listCall cfg], none⟩ ∧
      ∀ n : Nat, writeCount (List.flatten (List.replicate n [listCall cfg])) = 0 := by
  constructor
  · simp [update_dns, hip, hl, hs, hr, heq, cf_api_request]
  · intro n
    induction n with
    | zero => rfl
    | succ k ih =>
      simp only [List.replicate_succ, List.flatten_cons, writeCount,
        List.filter_append, List.length_append] at *
      simp [listCall, ApiCall.isWrite, ih]

/-- Witness for C1: a concrete run whose listed record already holds the
resolved address returns unchanged with only the list call issued. -/
theorem reconcile_unchanged_idempotent_witness :
    update_dns cfgEx respondEx provOkEx =
      .ok ⟨.unchanged, [listCall cfgEx], none⟩ :=
  (reconcile_unchanged_idempotent cfgEx respondEx provOkEx "203.0.113.5"
    ⟨true, none, some [okRecord]⟩ okRecord [] (by decide) rfl rfl rfl rfl).1

/-- Shared shape lemma: every terminating run issues one of four call
traces: nothing (resolver failed), the list query alone, the list query
followed by one create carrying the run's record body, or the list query
followed by one update carrying the run's record body and targeting the id
of the first listed record. -/
theorem update_dns_calls_cases (cfg : Config)
    (ipRespond : String → Option String) (prov : ProviderBehavior)
    (res : RunLog) (h : update_dns cfg ipRespond prov = .ok res) :
    res.calls = [] ∨ res.calls = [listCall cfg] ∨
    (∃ ip, get_public_ip cfg.RECORD_TYPE ipRespond = some ip ∧
       (cf_api_request prov.listResp).result.getD [] = [] ∧
       res.calls = [listCall cfg, .create (recordData cfg ip)]) ∨
    (∃ ip rec rest, get_public_ip cfg.RECORD_TYPE ipRespond = some ip ∧
       (cf_api_request prov.listResp).result.getD [] = rec :: rest ∧
       res.calls = [listCall cfg, .update rec.id (recordData cfg ip)]) := by
  unfold update_dns at h
  split at h
  · simp only [Except.ok.injEq] at h
    subst h
    exact Or.inl rfl
  · rename_i ip hip
    simp only [] at h
    split at h
    · split at h
      · cases h
      · simp only [Except.ok.injEq] at h
        subst h
        exact Or.inr (Or.inl rfl)
    · split at h
      · rename_i hnil
        split at h
        · split at h
          · simp only [Except.ok.injEq] at h
            subst h
            exact Or.inr (Or.inr (Or.inl ⟨ip, hip, hnil, rfl⟩))
          · cases h
        · split at h
          · cases h
          · simp only [Except.ok.injEq] at h
            subst h
            exact Or.inr (Or.inr (Or.inl ⟨ip, hip, hnil, rfl⟩))
      · rename_i rec rest hres
        split at h
        · simp only [Except.ok.injEq] at h
          subst h
          exact Or.inr (Or.inl rfl)
        · split at h
          · simp only [Except.ok.injEq] at h
            subst h
            exact Or.inr (Or.inr (Or.inr ⟨ip, rec, rest, hip, hres, rfl⟩))
          · split at h
            · cases h
            · simp only [Except.ok.injEq] at h
              subst h
              exact Or.inr (Or.inr (Or.inr ⟨ip, rec, rest, hip, hres, rfl⟩))

/-- C4: with more than one matching record, the run behaves exactly as if
the provider had returned only the first record of its response (the
warning log of line 312 has no control-flow effect), so it compares and
updates only that record, and it never issues a create call. -/
theorem reconcile_multiple_matches_first_only (cfg : Config)
    (ipRespond : String → Option String) (prov : ProviderBehavior)
    (ip : String) (body : CFBody (List CFRecord)) (r1 r2 : CFRecord)
    (rest : List CFRecord)
    (hip : get_public_ip cfg.RECORD_TYPE ipRespond = some ip)
    (hl : prov.listResp = .ok body)
    (hs : body.success = true)
    (hr : body.result = some (r1 :: r2 :: rest)) :
    update_dns cfg ipRespond prov =
      update_dns cfg ipRespond
        { prov with listResp := .ok ⟨body.success, body.errors, some [r1]⟩ } ∧
    ∀ res, update_dns cfg ipRespond prov = .ok res →
      (∀ d, ApiCall.create d ∉ res.calls) ∧
      ∀ i d, ApiCall.update i d ∈ res.calls → i = r1.id := by
  constructor
  · simp [update_dns, hip, hl, hs, hr, cf_api_request]
  · intro res hres
    rcases update_dns_calls_cases cfg ipRespond prov res hres with
      h0 | h0 | ⟨ip2, _, hnil, _⟩ | ⟨ip2, rec, rest2, hip2, hcons, h0⟩
    · rw [h0]
      exact ⟨fun d hd => (List.not_mem_nil _ hd), fun i d hd => absurd hd (List.not_mem_nil _)⟩
    · rw [h0]
      constructor
      · intro d hd
        simp [listCall] at hd
      · intro i d hd
        simp [listCall] at hd
    · rw [hl] at hnil
      simp [cf_api_request, hr] at hnil
    · rw [hl] at hcons
      simp only [cf_api_request, hr, Option.getD_some] at hcons
      cases hcons
      rw [h0]
      constructor
      · intro d hd
        simp [listCall, recordData] at hd
      · intro i d hd
        simp only [listCall, List.mem_cons, List.mem_singleton] at hd
        rcases hd with hd | hd | hd
        · cases hd
        · cases hd
          rfl
        · cases hd

/-- A provider whose list call returns two matching records. -/
def provTwoEx : ProviderBehavior :=
  ⟨.ok ⟨true, none, some [⟨"rid1", "203.0.113.5"⟩, ⟨"rid2", "203.0.113.9"⟩]⟩,
   fun _ => .ok ⟨true, none, some okRecord⟩,
   fun _ _ => .ok ⟨true, none, some okRecord⟩⟩

/-- Witness for C4: with two listed records the run equals the run that
only saw the first of them. -/
theorem reconcile_multiple_matches_first_only_witness :
    update_dns cfgEx respondEx provTwoEx =
      update_dns cfgEx respondEx
        { provTwoEx with
          listResp := .ok ⟨true, none, some [⟨"rid1", "203.0.113.5"⟩]⟩ } :=
  (reconcile_multiple_matches_first_only cfgEx respondEx provTwoEx
    "203.0.113.5"
    ⟨true, none, some [⟨"rid1", "203.0.113.5"⟩, ⟨"rid2", "203.0.113.9"⟩]⟩
    ⟨"rid1", "203.0.113.5"⟩ ⟨"rid2", "203.0.113.9"⟩ [] (by decide) rfl rfl rfl).1

/-- C8: a terminating run issues at most one write call, none of its calls
uses the DELETE verb, and every update call carries a body whose type and
name are the configured record type and name (the pair the list query
filtered on), whose proxied flag is false and whose ttl is the configured
ttl, so only the content is repointed at the resolved IP. -/
theorem reconcile_write_frame (cfg : Config)
    (ipRespond : String → Option String) (prov : ProviderBehavior)
    (res : RunLog) (h : update_dns cfg ipRespond prov = .ok res) :
    writeCount res.calls ≤ 1 ∧
    (∀ c ∈ res.calls, c.method ≠ "DELETE") ∧
    ∀ i d, ApiCall.update i d ∈ res.calls →
      d.type = cfg.RECORD_TYPE.str ∧ d.name = cfg.RECORD_NAME ∧
      d.proxied = false ∧ d.ttl = cfg.TTL := by
  rcases update_dns_calls_cases cfg ipRespond prov res h with
    h0 | h0 | ⟨ip, _, _, h0⟩ | ⟨ip, rec, rest, _, _, h0⟩
  · rw [h0]
    refine ⟨by simp [writeCount], ?_, ?_⟩
    · intro c hc
      exact absurd hc (List.not_mem_nil _)
    · intro i d hd
      exact absurd hd (List.not_mem_nil _)
  · rw [h0]
    refine ⟨by simp [writeCount, listCall, ApiCall.isWrite], ?_, ?_⟩
    · intro c hc
      simp only [List.mem_singleton] at hc
      subst hc
      simp [listCall, ApiCall.method]
    · intro i d hd
      simp [listCall] at hd
  · rw [h0]
    refine ⟨by simp [writeCount, listCall, ApiCall.isWrite], ?_, ?_⟩
    · intro c hc
      simp only [List.mem_cons, List.mem_singleton] at hc
      rcases hc with hc | hc | hc
      · subst hc
        simp [listCall, ApiCall.method]
      · subst hc
        simp [ApiCall.method]
      · cases hc
    · intro i d hd
      simp [listCall] at hd
  · rw [h0]
    refine ⟨by simp [writeCount, listCall, ApiCall.isWrite], ?_, ?_⟩
    · intro c hc
      simp only [List.mem_cons, List.mem_singleton] at hc
      rcases hc with hc | hc | hc
      · subst hc
        simp [listCall, ApiCall.method]
      · subst hc
        simp [ApiCall.method]
      · cases hc
    · intro i d hd
      simp only [listCall, List.mem_cons, List.mem_singleton] at hd
      rcases hd with hd | hd | hd
      · cases hd
      · cases hd
        simp [recordData]
      · cases hd

/-- Witness for C8 at a concrete changed-IP run (one update call). -/
theorem reconcile_write_frame_witness :
    writeCount
        [listCall cfgEx, .update "rid1" (recordData cfgEx "203.0.113.5")] ≤ 1 ∧
      (∀ c ∈ [listCall cfgEx,
          ApiCall.update "rid1" (recordData cfgEx "203.0.113.5")],
        c.method ≠ "DELETE") ∧
      ∀ i d, ApiCall.update i d ∈
          [listCall cfgEx, ApiCall.update "rid1" (recordData cfgEx "203.0.113.5")] →
        d.type = cfgEx.RECORD_TYPE.str ∧ d.name = cfgEx.RECORD_NAME ∧
        d.proxied = false ∧ d.ttl = cfgEx.TTL :=
  reconcile_write_frame cfgEx respondEx
    ⟨.ok ⟨true, none, some [⟨"rid1", "203.0.113.1"⟩]⟩,
     fun _ => .ok ⟨true, none, some okRecord⟩,
     fun _ _ => .ok ⟨true, none, some okRecord⟩⟩
    ⟨.updated, [listCall cfgEx, .update "rid1" (recordData cfgEx "203.0.113.5")],
     none⟩
    rfl

/-- A 2xx exchange hands the parsed body through unchanged. -/
theorem cf_api_request_ok {ρ : Type} (body : CFBody ρ) :
    cf_api_request (HttpOutcome.ok body) = body := rfl

/-- C2: with a successful list call matching zero records, the run issues
exactly one create call, carrying the configured type and name, the
resolved IP as content, the configured ttl and proxied false, and mirrors
the create response: created on provider success, failed on
provider-reported failure.  The create response is assumed well formed
(a success body carries its result payload, a failure body does not carry
a present-but-empty errors array; either defect raises an uncaught Python
exception instead of returning). -/
theorem reconcile_creates_when_no_record (cfg : Config)
    (ipRespond : String → Option String) (prov : ProviderBehavior)
    (ip : String) (body : CFBody (List CFRecord))
    (hip : get_public_ip cfg.RECORD_TYPE ipRespond = some ip)
    (hl : prov.listResp = .ok body)
    (hs : body.success = true)
    (hr : body.result.getD [] = [])
    (hwf1 : (cf_api_request (prov.createResp (recordData cfg ip))).success = true →
       ((cf_api_request (prov.createResp (recordData cfg ip))).result).isSome)
    (hwf2 : (cf_api_request (prov.createResp (recordData cfg ip))).success = false →
       (cf_api_request (prov.createResp (recordData cfg ip))).errors ≠ some []) :
    (∃ rep, update_dns cfg ipRespond prov =
       .ok ⟨if (cf_api_request (prov.createResp (recordData cfg ip))).success
              then .created else .failed,
            [listCall cfg, .create (recordData cfg ip)], rep⟩) ∧
    writeCount [listCall cfg, .create (recordData cfg ip)] = 1 := by
  refine ⟨?_, by simp [writeCount, listCall, ApiCall.isWrite]⟩
  cases hsucc : (cf_api_request (prov.createResp (recordData cfg ip))).success with
  | true =>
    rcases Option.isSome_iff_exists.1 (hwf1 hsucc) with ⟨r, hres⟩
    refine ⟨none, ?_⟩
    simp [update_dns, hip, hl, hs, hr, cf_api_request_ok, hsucc, hres]
  | false =>
    cases herr : (cf_api_request (prov.createResp (recordData cfg ip))).errors with
    | none =>
      refine ⟨some "未知错误", ?_⟩
      simp [update_dns, hip, hl, hs, hr, cf_api_request_ok, hsucc, herr, firstError]
    | some l =>
      cases l with
      | nil => exact absurd herr (hwf2 hsucc)
      | cons m ms =>
        refine ⟨some (m.getD "未知错误"), ?_⟩
        simp [update_dns, hip, hl, hs, hr, cf_api_request_ok, hsucc, herr, firstError]

/-- A provider whose list call succeeds with zero matching records and
whose create call succeeds. -/
def provEmptyEx : ProviderBehavior :=
  ⟨.ok ⟨true, none, some []⟩,
   fun _ => .ok ⟨true, none, some okRecord⟩,
   fun _ _ => .ok ⟨true, none, some okRecord⟩⟩

/-- Witness for C2: a concrete zero-record run creates the record and
returns the created outcome. -/
theorem reconcile_creates_when_no_record_witness :
    (∃ rep, update_dns cfgEx respondEx provEmptyEx =
       .ok ⟨if (cf_api_request
                 (provEmptyEx.createResp (recordData cfgEx "203.0.113.5"))).success
              then .created else .failed,
            [listCall cfgEx, .create (recordData cfgEx "203.0.113.5")], rep⟩) ∧
    writeCount [listCall cfgEx, .create (recordData cfgEx "203.0.113.5")] = 1 :=
  reconcile_creates_when_no_record cfgEx respondEx provEmptyEx "203.0.113.5"
    ⟨true, none, some []⟩ (by decide) rfl rfl rfl
    (fun _ => by decide) (fun hfalse => absurd hfalse (by decide))

/-- C3: with a successful list call whose first matching record stores a
content different from the resolved IP, the run issues exactly one update
call targeting that record's id with the configured type and name, the
resolved IP as content, the configured ttl and proxied false, and mirrors
the update response: updated on provider success, failed on
provider-reported failure (assumed not to carry a present-but-empty
errors array, which would raise an uncaught IndexError instead). -/
theorem reconcile_updates_on_change (cfg : Config)
    (ipRespond : String → Option String) (prov : ProviderBehavior)
    (ip : String) (body : CFBody (List CFRecord)) (rec : CFRecord)
    (rest : List CFRecord)
    (hip : get_public_ip cfg.RECORD_TYPE ipRespond = some ip)
    (hl : prov.listResp = .ok body)
    (hs : body.success = true)
    (hr : body.result = some (rec :: rest))
    (hne : rec.content ≠ ip)
    (hwf : (cf_api_request (prov.updateResp rec.id (recordData cfg ip))).success = false →
       (cf_api_request (prov.updateResp rec.id (recordData cfg ip))).errors ≠ some []) :
    (∃ rep, update_dns cfg ipRespond prov =
       .ok ⟨if (cf_api_request (prov.updateResp rec.id (recordData cfg ip))).success
              then .updated else .failed,
            [listCall cfg, .update rec.id (recordData cfg ip)], rep⟩) ∧
    writeCount [listCall cfg, .update rec.id (recordData cfg ip)] = 1 := by
  refine ⟨?_, by simp [writeCount, listCall, ApiCall.isWrite]⟩
  cases hsucc : (cf_api_request (prov.updateResp rec.id (recordData cfg ip))).success with
  | true =>
    refine ⟨none, ?_⟩
    simp [update_dns, hip, hl, hs, hr, hne, cf_api_request_ok, hsucc]
  | false =>
    cases herr : (cf_api_request (prov.updateResp rec.id (recordData cfg ip))).errors with
    | none =>
      refine ⟨some "未知错误", ?_⟩
      simp [update_dns, hip, hl, hs, hr, hne, cf_api_request_ok, hsucc, herr, firstError]
    | some l =>
      cases l with
      | nil => exact absurd herr (hwf hsucc)
      | cons m ms =>
        refine ⟨some (m.getD "未知错误"), ?_⟩
        simp [update_dns, hip, hl, hs, hr, hne, cf_api_request_ok, hsucc, herr, firstError]

/-- A provider whose list call returns one record with a stale address and
whose update call succeeds. -/
def provStaleEx : ProviderBehavior :=
  ⟨.ok ⟨true, none, some [⟨"rid1", "203.0.113.1"⟩]⟩,
   fun _ => .ok ⟨true, none, some okRecord⟩,
   fun _ _ => .ok ⟨true, none, some okRecord⟩⟩

/-- Witness for C3: the stale record run issues one update call targeting
its id and returns the updated outcome. -/
theorem reconcile_updates_on_change_witness :
    (∃ rep, update_dns cfgEx respondEx provStaleEx =
       .ok ⟨if (cf_api_request
                 (provStaleEx.updateResp "rid1" (recordData cfgEx "203.0.113.5"))).success
              then .updated else .failed,
            [listCall cfgEx, .update "rid1" (recordData cfgEx "203.0.113.5")], rep⟩) ∧
    writeCount [listCall cfgEx, .update "rid1" (recordData cfgEx "203.0.113.5")] = 1 :=
  reconcile_updates_on_change cfgEx respondEx provStaleEx "203.0.113.5"
    ⟨true, none, some [⟨"rid1", "203.0.113.1"⟩]⟩ ⟨"rid1", "203.0.113.1"⟩ []
    (by decide) rfl rfl rfl (by decide) (fun hfalse => absurd hfalse (by decide))

/-- Counterexample to C6 as stated: a list call answered 2xx with success
false and the two error messages "a" and "b" makes the run report "a" (the
first message alone), not the comma-joined concatenation "a, b" of every
message in the array. -/
theorem reported_error_join_counterexample :
    update_dns cfgEx respondEx
        ⟨.ok ⟨false, some [some "a", some "b"], none⟩,
         fun _ => .ok ⟨true, none, some okRecord⟩,
         fun _ _ => .ok ⟨true, none, some okRecord⟩⟩ =
      .ok ⟨.failed, [listCall cfgEx], some "a"⟩ ∧
    some "a" ≠ some (String.intercalate ", " ["a", "b"]) := by
  constructor
  · rfl
  · decide

/-- C6 amended: at each of the three call sites (list, create, update), a
response body with success false is reported through the message of the
FIRST entry of its errors array; the comma-joined concatenation of every
message arises only inside cf_api_request for a transport-level error whose
response body parsed with an errors array carrying a message in each entry,
and there it is appended after the transport error text and " | ", forming
the single synthetic entry whose message the run then reports. -/
theorem reported_error_is_first_message (cfg : Config)
    (ipRespond : String → Option String) (prov : ProviderBehavior)
    (ip : String)
    (hip : get_public_ip cfg.RECORD_TYPE ipRespond = some ip) :
    (∀ body m rest, prov.listResp = .ok body → body.success = false →
       body.errors = some (some m :: rest) →
       update_dns cfg ipRespond prov = .ok ⟨.failed, [listCall cfg], some m⟩) ∧
    (∀ body cbody m rest, prov.listResp = .ok body → body.success = true →
       body.result.getD [] = [] →
       prov.createResp (recordData cfg ip) = .ok cbody →
       cbody.success = false → cbody.errors = some (some m :: rest) →
       update_dns cfg ipRespond prov =
         .ok ⟨.failed, [listCall cfg, .create (recordData cfg ip)], some m⟩) ∧
    (∀ body rec rrest ubody m rest, prov.listResp = .ok body →
       body.success = true → body.result = some (rec :: rrest) →
       rec.content ≠ ip →
       prov.updateResp rec.id (recordData cfg ip) = .ok ubody →
       ubody.success = false → ubody.errors = some (some m :: rest) →
       update_dns cfg ipRespond prov =
         .ok ⟨.failed, [listCall cfg, .update rec.id (recordData cfg ip)], some m⟩) ∧
    (∀ (tmsg : String) (b : CFBody CFRecord) (msgs : List String),
       b.errors = some (msgs.map some) →
       cf_api_request (HttpOutcome.err tmsg (some b)) =
         ⟨false, some [some (tmsg ++ " | " ++ String.intercalate ", " msgs)],
          none⟩) := by
  refine ⟨?_, ?_, ?_, ?_⟩
  · intro body m rest hl hs herr
    simp [update_dns, hip, hl, hs, herr, cf_api_request_ok, firstError]
  · intro body cbody m rest hl hs hrd hcr hcs herr
    simp [update_dns, hip, hl, hs, hrd, hcr, hcs, herr, cf_api_request_ok,
      firstError]
  · intro body rec rrest ubody m rest hl hs hrd hne hur hus herr
    simp [update_dns, hip, hl, hs, hrd, hne, hur, hus, herr, cf_api_request_ok,
      firstError]
  · intro tmsg b msgs herr
    simp [cf_api_request, herr, joinMessages, List.all_map, List.filterMap_map,
      Function.comp, Option.isSome]

/-- A provider whose list call is answered 2xx with success false and one
error message. -/
def provListFailEx : ProviderBehavior :=
  ⟨.ok ⟨false, some [some "code 9103"], none⟩,
   fun _ => .ok ⟨true, none, some okRecord⟩,
   fun _ _ => .ok ⟨true, none, some okRecord⟩⟩

/-- Witness for the amended C6: a failed list call with one error message
is reported with that message. -/
theorem reported_error_is_first_message_witness :
    update_dns cfgEx respondEx provListFailEx =
      .ok ⟨.failed, [listCall cfgEx], some "code 9103"⟩ :=
  (reported_error_is_first_message cfgEx respondEx provListFailEx "203.0.113.5"
    (by decide)).1 ⟨false, some [some "code 9103"], none⟩ "code 9103" [] rfl rfl
    rfl

/-- C9: the process exits 0 exactly when the run terminates in a created,
updated or unchanged outcome; a failed outcome, an uncaught exception and
a keyboard interrupt all exit 1, and no other exit code occurs. -/
theorem main_exit_codes (cfg : Config) (ipRespond : String → Option String)
    (prov : ProviderBehavior) (interrupted : Bool) :
    (runMain cfg ipRespond prov interrupted = 0 ↔
       interrupted = false ∧ ∃ log, update_dns cfg ipRespond prov = .ok log ∧
         (log.outcome = .created ∨ log.outcome = .updated ∨
          log.outcome = .unchanged)) ∧
    (runMain cfg ipRespond prov interrupted = 0 ∨
     runMain cfg ipRespond prov interrupted = 1) := by
  cases interrupted with
  | true => simp [runMain]
  | false =>
    cases hres : update_dns cfg ipRespond prov with
    | error e => simp [runMain, hres]
    | ok log =>
      cases houtcome : log.outcome <;>
        simp [runMain, hres, houtcome, Outcome.toBool]

/-- Witness for C9: an unchanged run exits 0. -/
theorem main_exit_codes_witness :
    runMain cfgEx respondEx provOkEx false = 0 :=
  (main_exit_codes cfgEx respondEx provOkEx false).1.mpr
    ⟨rfl, ⟨.unchanged, [listCall cfgEx], none⟩, rfl, Or.inr (Or.inr rfl)⟩

/-- C10: a successful list response whose result payload is absent or the
empty array is treated as zero matching records: the run behaves exactly
as if the provider had returned an empty record list, its terminating
trace is the list query followed by one create call, and it neither
updates nor returns unchanged. -/
theorem empty_or_absent_result_creates (cfg : Config)
    (ipRespond : String → Option String) (prov : ProviderBehavior)
    (ip : String) (body : CFBody (List CFRecord))
    (hip : get_public_ip cfg.RECORD_TYPE ipRespond = some ip)
    (hl : prov.listResp = .ok body)
    (hs : body.success = true)
    (hr : body.result = none ∨ body.result = some []) :
    update_dns cfg ipRespond prov =
      update_dns cfg ipRespond
        { prov with listResp := .ok ⟨true, body.errors, some []⟩ } ∧
    ∀ res, update_dns cfg ipRespond prov = .ok res →
      res.calls = [listCall cfg, .create (recordData cfg ip)] ∧
      res.outcome ≠ .updated ∧ res.outcome ≠ .unchanged := by
  have hrd : body.result.getD [] = [] := by
    rcases hr with h | h <;> simp [h]
  constructor
  · rcases hr with h | h <;>
      simp [update_dns, hip, hl, hs, h, cf_api_request_ok]
  · intro res hres
    cases hsucc : (cf_api_request (prov.createResp (recordData cfg ip))).success with
    | true =>
      cases hres2 : (cf_api_request (prov.createResp (recordData cfg ip))).result with
      | some r =>
        have heval : update_dns cfg ipRespond prov =
            .ok ⟨.created, [listCall cfg, .create (recordData cfg ip)], none⟩ := by
          simp [update_dns, hip, hl, hs, hrd, cf_api_request_ok, hsucc, hres2]
        rw [heval] at hres
        simp only [Except.ok.injEq] at hres
        subst hres
        exact ⟨rfl, by simp, by simp⟩
      | none =>
        have heval : update_dns cfg ipRespond prov = .error "KeyError" := by
          simp [update_dns, hip, hl, hs, hrd, cf_api_request_ok, hsucc, hres2]
        rw [heval] at hres
        cases hres
    | false =>
      cases herr : (cf_api_request (prov.createResp (recordData cfg ip))).errors with
      | none =>
        have heval : update_dns cfg ipRespond prov =
            .ok ⟨.failed, [listCall cfg, .create (recordData cfg ip)],
                 some "未知错误"⟩ := by
          simp [update_dns, hip, hl, hs, hrd, cf_api_request_ok, hsucc, herr,
            firstError]
        rw [heval] at hres
        simp only [Except.ok.injEq] at hres
        subst hres
        exact ⟨rfl, by simp, by simp⟩
      | some l =>
        cases l with
        | nil =>
          have heval : update_dns cfg ipRespond prov = .error "IndexError" := by
            simp [update_dns, hip, hl, hs, hrd, cf_api_request_ok, hsucc, herr,
              firstError]
          rw [heval] at hres
          cases hres
        | cons m ms =>
          have heval : update_dns cfg ipRespond prov =
              .ok ⟨.failed, [listCall cfg, .create (recordData cfg ip)],
                   some (m.getD "未知错误")⟩ := by
            simp [update_dns, hip, hl, hs, hrd, cf_api_request_ok, hsucc, herr,
              firstError]
          rw [heval] at hres
          simp only [Except.ok.injEq] at hres
          subst hres
          exact ⟨rfl, by simp, by simp⟩

/-- A provider whose successful list response carries no result payload at
all. -/
def provAbsentEx : ProviderBehavior :=
  ⟨.ok ⟨true, none, none⟩,
   fun _ => .ok ⟨true, none, some okRecord⟩,
   fun _ _ => .ok ⟨true, none, some okRecord⟩⟩

/-- Witness for C10: a success body with no result field runs exactly like
one carrying an empty record list. -/
theorem empty_or_absent_result_creates_witness :
    update_dns cfgEx respondEx provAbsentEx =
      update_dns cfgEx respondEx
        { provAbsentEx with listResp := .ok ⟨true, none, some []⟩ } :=
  (empty_or_absent_result_creates cfgEx respondEx provAbsentEx "203.0.113.5"
    ⟨true, none, none⟩ (by decide) rfl rfl (Or.inl rfl)).1
